import Mathlib

/-!
tuskeApiServer: supply cache, refresher loop and HTTP handlers

A shallow embedding of `main.go`.

* Machine integers (`uint64`) are `Nat` with an explicit `% 2^64` where Go wraps.
* `time.Time` is an `Int` count of nanoseconds on one time line whose origin is the
  zero `time.Time` (1 January of year 1, UTC); `time.Duration` is an `Int` of nanoseconds.
* `float64` values are exact: a finite non-negative double is the natural number `k`
  with value `k * 2^(-1074)`; every operation rounds to nearest, ties to even.
* Code with effects returns the list of effects it performs, in program order; the HTTP
  response is what those effects leave in the `http.ResponseWriter`.
-/

namespace TuskeApiServer

/-! ## Data model -/

/-- The `result` object of a `get_block_count` reply. -/
structure GetBlockCountResult where
  Count : Nat
  deriving DecidableEq, Repr

/-- Go `GetBlockCountResponse`; `Error` is `none` for a JSON `null` / absent field,
otherwise the decoded value (kept as its text). -/
structure GetBlockCountResponse where
  Jsonrpc : String
  Id : String
  Result : GetBlockCountResult
  Error : Option String
  deriving DecidableEq, Repr

/-- The `result` object of a `get_coinbase_tx_sum` reply (two `uint64` fields). -/
structure CoinbaseTxSumResult where
  EmissionAmount : Nat
  FeeAmount : Nat
  deriving DecidableEq, Repr

/-- Go `CoinbaseTxSumResponse`. -/
structure CoinbaseTxSumResponse where
  Jsonrpc : String
  Id : String
  Result : CoinbaseTxSumResult
  Error : Option String
  deriving DecidableEq, Repr

/-- The package-level variables `cache` and `lastUpdateTime` (the mutex is modelled by
the `lock` / `unlock` effects). -/
structure Globals where
  cache : CoinbaseTxSumResponse
  lastUpdateTime : Int
  deriving DecidableEq, Repr

/-- Go zero value of `CoinbaseTxSumResponse`. -/
def zeroResponse : CoinbaseTxSumResponse :=
  { Jsonrpc := "", Id := "", Result := { EmissionAmount := 0, FeeAmount := 0 }, Error := none }

/-- State of the package-level variables when `main` starts: zero record, zero time. -/
def initGlobals : Globals :=
  { cache := zeroResponse, lastUpdateTime := 0 }

/-! ## Time -/

/-- Go `time.Second`, in nanoseconds. -/
def Second : Int := 1000000000

/-- Go `time.Minute`, in nanoseconds. -/
def Minute : Int := 60 * Second

/-- Largest `time.Duration` (an `int64`). -/
def maxDuration : Int := 2 ^ 63 - 1

/-- Smallest `time.Duration`. -/
def minDuration : Int := -(2 ^ 63)

/-- Go `time.Since(t)` evaluated when the clock reads `now`: the difference, saturated to
the range of `time.Duration`. -/
def timeSince (now t : Int) : Int :=
  if now - t > maxDuration then maxDuration
  else if now - t < minDuration then minDuration
  else now - t

/-- The Unix epoch (1 January 1970, UTC) on the time line, in nanoseconds after the zero
`time.Time`. -/
def unixEpoch : Int := 62135596800 * Second

/-! ## Effects and the HTTP response -/

/-- Observable effects, in program order. -/
inductive Effect where
  | lock
  | unlock
  | rpc (method : String)
  | sleep (d : Int)
  | logPrintf (msg : String)
  | setHeader (key value : String)
  | writeHeader (code : Nat)
  | write (bytes : String)
  deriving DecidableEq, Repr

/-- What an `http.ResponseWriter` holds: status (`0` while no header has been written),
header map and body. -/
structure Response where
  status : Nat
  header : List (String × String)
  body : String
  deriving DecidableEq, Repr

/-- Go `Header.Set`: replaces the value stored under `key`. -/
def headerSet (h : List (String × String)) (key value : String) : List (String × String) :=
  (key, value) :: h.filter (fun p => p.1 != key)

/-- One effect applied to the response writer: header changes count only before the
header is written; the first `Write` writes status 200 when none was set. -/
def Response.apply (w : Response) : Effect → Response
  | .setHeader k v => if w.status = 0 then { w with header := headerSet w.header k v } else w
  | .writeHeader c => if w.status = 0 then { w with status := c } else w
  | .write s => { w with status := (if w.status = 0 then 200 else w.status), body := w.body ++ s }
  | _ => w

/-- The response a client receives from a handler that performed the effects `es`. -/
def response (es : List Effect) : Response :=
  es.foldl Response.apply { status := 0, header := [], body := "" }

/-- Go `http.StatusInternalServerError`. -/
def StatusInternalServerError : Nat := 500

/-- Go `http.Error`: plain-text headers, the status code, then the message and a newline. -/
def httpError (error : String) (code : Nat) : List Effect :=
  [ .setHeader "Content-Type" "text/plain; charset=utf-8",
    .setHeader "X-Content-Type-Options" "nosniff",
    .writeHeader code,
    .write (error ++ "\n") ]

/-! ## `/circulation` -/

/-- Go `handler` (route `/circulation`). The deferred `Unlock` runs when the function
returns, hence after the response has been written. -/
def handler (g : Globals) (now : Int) : List Effect :=
  [Effect.lock] ++
  (if timeSince now g.lastUpdateTime > 5 * Minute then
    httpError "Cache is outdated" StatusInternalServerError
  else
    let total := (g.cache.Result.EmissionAmount + g.cache.Result.FeeAmount) % 2 ^ 64
      / 1000000000000
    let released := (2500 + 7000 + 5000) % 2 ^ 64
    let total := (total + released) % 2 ^ 64
    [ .setHeader "Content-Type" "application/json",
      .write (toString total) ]) ++
  [Effect.unlock]

/-! ## `float64`

A finite non-negative IEEE 754 binary64 value is an integer multiple of `2^(-1074)`; it is
stored as that multiple. The values are the `k < 2^53` (subnormal and lowest normal range)
and the `m * 2^s` with `2^52 ≤ m < 2^53`. Overflow to infinity (`k ≥ 2^2098`) cannot occur
in this program, whose operands are at most `2^64`, and is not modelled. -/

/-- The quotient `p / q` rounded to the nearest natural number, ties to the even one. -/
def roundHalfEven (p q : Nat) : Nat :=
  let n := p / q
  let r := p % q
  if 2 * r < q then n
  else if 2 * r > q then n + 1
  else if n % 2 = 0 then n else n + 1

/-- A finite non-negative `float64`, as its number of units of `2^(-1074)`. -/
structure Float64 where
  units : Nat
  deriving DecidableEq, Repr

/-- Number of binary digits of `n` (`0` for `0`), by halving at most `fuel` times. -/
def bitLenAux : Nat → Nat → Nat
  | 0, _ => 0
  | fuel + 1, n => if n = 0 then 0 else bitLenAux fuel (n / 2) + 1

/-- Number of binary digits of `n`: the least `b` with `n < 2^b`. -/
def bitLen (n : Nat) : Nat :=
  bitLenAux n n

/-- The `float64` nearest to `(p / q) * 2^(-1074)`, ties to even: the quotient is rounded
at the position that leaves 53 significant bits. -/
def f64Round (p q : Nat) : Float64 :=
  let bits := bitLen (p / q)
  let s := bits - 53
  { units := roundHalfEven p (q * 2 ^ s) * 2 ^ s }

/-- Conversion `float64(n)` of an unsigned integer. -/
def Float64.ofUInt64 (n : Nat) : Float64 :=
  f64Round (n * 2 ^ 1074) 1

/-- A decimal floating-point constant `mant * 10^(-dexp)` converted to `float64`. -/
def Float64.ofDecimal (mant dexp : Nat) : Float64 :=
  f64Round (mant * 2 ^ 1074) (10 ^ dexp)

/-- Division `a / b` in `float64` (`b` non-zero). -/
def Float64.div (a b : Float64) : Float64 :=
  f64Round (a.units * 2 ^ 1074) b.units

/-- Addition `a + b` in `float64`. -/
def Float64.add (a b : Float64) : Float64 :=
  f64Round (a.units + b.units) 1

/-- `s` padded on the left with `0` to `n` characters. -/
def padZeros (n : Nat) (s : String) : String :=
  String.mk (List.replicate (n - s.length) '0') ++ s

/-- Go `fmt.Sprintf("%.12f", x)`: the exact value rounded to 12 decimals, ties to even,
in fixed point. -/
def Float64.format12 (x : Float64) : String :=
  let n := roundHalfEven (x.units * 10 ^ 12) (2 ^ 1074)
  toString (n / 10 ^ 12) ++ "." ++ padZeros 12 (toString (n % 10 ^ 12))

/-- Go `json.NewEncoder(w).Encode(map[string]string{"result": s})` for an `s` made of
digits and a point (nothing to escape): the object, then a newline. -/
def jsonEncodeResult (s : String) : String :=
  "\x7b\"result\":\"" ++ s ++ "\"\x7d\n"

/-! ## `/CirculatingSupply` and `/TotalSupply` -/

/-- Go `CirculatingSupply`. -/
def CirculatingSupply (g : Globals) (now : Int) : List Effect :=
  [Effect.lock] ++
  (if timeSince now g.lastUpdateTime > 5 * Minute then
    httpError "Cache is outdated" StatusInternalServerError
  else
    let total := Float64.div
      (Float64.ofUInt64 ((g.cache.Result.EmissionAmount + g.cache.Result.FeeAmount) % 2 ^ 64))
      (Float64.ofDecimal 1000000000000 0)
    let released := Float64.ofUInt64 (2500 + 7000 + 5000)
    let total := Float64.add total released
    let responseData := Float64.format12 total
    [ .setHeader "Content-Type" "application/json",
      .write (jsonEncodeResult responseData) ]) ++
  [Effect.unlock]

/-- Go `TotalSupply`. -/
def TotalSupply (g : Globals) (now : Int) : List Effect :=
  [Effect.lock] ++
  (if timeSince now g.lastUpdateTime > 5 * Minute then
    httpError "Cache is outdated" StatusInternalServerError
  else
    let total := Float64.div
      (Float64.ofUInt64 ((g.cache.Result.EmissionAmount + g.cache.Result.FeeAmount) % 2 ^ 64))
      (Float64.ofDecimal 1000000000000 0)
    let initBlockReward := Float64.ofDecimal 553402319999999949 12
    let total := Float64.add total initBlockReward
    let responseData := Float64.format12 total
    [ .setHeader "Content-Type" "application/json",
      .write (jsonEncodeResult responseData) ]) ++
  [Effect.unlock]

/-! ## The refresher -/

/-- Go `getBlockCount`. `reply` is what posting the request and decoding the body gave:
an error of `http.Post`, `ioutil.ReadAll` or `json.Unmarshal`, or the decoded envelope. -/
def getBlockCount (reply : Except String GetBlockCountResponse) :
    List Effect × Except String Nat :=
  ([.rpc "get_block_count"],
    match reply with
    | .error err => .error err
    | .ok result =>
      match result.Error with
      | some e => .error ("RPC Error: " ++ e)
      | none => .ok result.Result.Count)

/-- Go `getCoinbaseTxSum`. `daemon height1 height2` is what posting the request with these
parameters and decoding the body gave. -/
def getCoinbaseTxSum (daemon : Nat → Nat → Except String CoinbaseTxSumResponse)
    (height1 height2 : Nat) : List Effect × Except String CoinbaseTxSumResponse :=
  ([.rpc "get_coinbase_tx_sum"],
    match daemon height1 height2 with
    | .error err => .error err
    | .ok result =>
      match result.Error with
      | some e => .error ("RPC Error: " ++ e)
      | none => .ok result)

/-- What the environment does during one iteration of the loop of `updateCache`: the two
replies of the daemon, the time each call takes, and the time by which the sleep exceeds
the five minutes asked for (`time.Sleep` pauses for at least the duration). Time spent
waiting for the mutex counts in `coinbaseDur`. -/
structure IterEnv where
  blockCountReply : Except String GetBlockCountResponse
  coinbaseReply : Nat → Nat → Except String CoinbaseTxSumResponse
  blockCountDur : Nat
  coinbaseDur : Nat
  sleepExtra : Nat

/-- Outcome of iterations of the loop: the package-level variables, the clock reading at
which the next iteration begins, and the effects performed. -/
structure IterResult where
  g : Globals
  clock : Int
  effects : List Effect
  deriving DecidableEq, Repr

/-- One iteration of the `for` loop of Go `updateCache`, begun when the clock reads
`clock`. The two assignments made between `Lock` and `Unlock` change `g`; they are not
effects, so `lock` and `unlock` are adjacent in the sequence. -/
def updateCacheIter (env : IterEnv) (g : Globals) (clock : Int) : IterResult :=
  let r1 := getBlockCount env.blockCountReply
  let clock := clock + env.blockCountDur
  match r1.2 with
  | .error err =>
    { g := g
      clock := clock + (5 * Minute + env.sleepExtra)
      effects := r1.1 ++
        [.logPrintf ("Error getting block count: " ++ err), .sleep (5 * Minute)] }
  | .ok height2 =>
    let r2 := getCoinbaseTxSum env.coinbaseReply 1 height2
    let clock := clock + env.coinbaseDur
    match r2.2 with
    | .error err =>
      { g := g
        clock := clock + (5 * Minute + env.sleepExtra)
        effects := r1.1 ++ r2.1 ++
          [.logPrintf ("Error updating cache: " ++ err), .sleep (5 * Minute)] }
    | .ok result =>
      { g := { cache := result, lastUpdateTime := clock }
        clock := clock + (5 * Minute + env.sleepExtra)
        effects := r1.1 ++ r2.1 ++ [.lock, .unlock, .sleep (5 * Minute)] }

/-- The first iterations of the loop of `updateCache`, one per element of `envs`. -/
def updateCache : List IterEnv → Globals → Int → IterResult
  | [], g, clock => { g := g, clock := clock, effects := [] }
  | env :: rest, g, clock =>
    let r := updateCacheIter env g clock
    let r2 := updateCache rest r.g r.clock
    { g := r2.g, clock := r2.clock, effects := r.effects ++ r2.effects }

/-- The iteration failed: `getBlockCount` returned an error, or it succeeded and
`getCoinbaseTxSum` returned an error. -/
def IterEnv.fails (env : IterEnv) : Prop :=
  (∃ err, (getBlockCount env.blockCountReply).2 = .error err) ∨
  (∃ height2 err, (getBlockCount env.blockCountReply).2 = .ok height2 ∧
    (getCoinbaseTxSum env.coinbaseReply 1 height2).2 = .error err)

/-- Both calls of the iteration succeeded, the second with `result`. -/
def IterEnv.succeedsWith (env : IterEnv) (result : CoinbaseTxSumResponse) : Prop :=
  ∃ height2, (getBlockCount env.blockCountReply).2 = .ok height2 ∧
    (getCoinbaseTxSum env.coinbaseReply 1 height2).2 = .ok result

/-- The clock reading at which a successful iteration begun at `clock` stores the time. -/
def IterEnv.writeTime (env : IterEnv) (clock : Int) : Int :=
  clock + env.blockCountDur + env.coinbaseDur

/-! ## Lock discipline on effect sequences -/

/-- Effects that reach the network or block: an RPC call, a write to the HTTP response
(status line or body), a sleep. -/
def Effect.blocking : Effect → Bool
  | .rpc _ => true
  | .sleep _ => true
  | .writeHeader _ => true
  | .write _ => true
  | _ => false

/-- An RPC call or a sleep. -/
def Effect.rpcOrSleep : Effect → Bool
  | .rpc _ => true
  | .sleep _ => true
  | _ => false

/-- No effect selected by `bad` occurs between a `lock` and the following `unlock`;
`held` tells whether the lock is held when the sequence starts. -/
def noneUnderLock (bad : Effect → Bool) : Bool → List Effect → Bool
  | _, [] => true
  | _, .lock :: es => noneUnderLock bad true es
  | _, .unlock :: es => noneUnderLock bad false es
  | held, e :: es => !(held && bad e) && noneUnderLock bad held es

/-- The effects selected by `bad` that occur while the lock is held. -/
def underLock (bad : Effect → Bool) : Bool → List Effect → List Effect
  | _, [] => []
  | _, .lock :: es => underLock bad true es
  | _, .unlock :: es => underLock bad false es
  | held, e :: es => (if held && bad e then [e] else []) ++ underLock bad held es

/-! ## Responses, computed values and sample inputs -/

/-- The response of a handler that served a value: status 200, JSON content type. -/
def okResponse (body : String) : Response :=
  { status := 200, header := [("Content-Type", "application/json")], body := body }

/-- The response produced by `http.Error(w, "Cache is outdated", 500)`. -/
def outdatedResponse : Response :=
  { status := 500
    header := [("X-Content-Type-Options", "nosniff"), ("Content-Type", "text/plain; charset=utf-8")]
    body := "Cache is outdated\n" }

/-- The integer `handler` prints for the cached pair `(e, f)`. -/
def circulationTotal (e f : Nat) : Nat :=
  ((e + f) % 2 ^ 64 / 1000000000000 + 14500) % 2 ^ 64

/-- The text `CirculatingSupply` puts in `result` for the cached pair `(e, f)`. -/
def circulatingSupplyText (e f : Nat) : String :=
  Float64.format12 (Float64.add
    (Float64.div (Float64.ofUInt64 ((e + f) % 2 ^ 64)) (Float64.ofDecimal 1000000000000 0))
    (Float64.ofUInt64 14500))

/-- The text `TotalSupply` puts in `result` for the cached pair `(e, f)`. -/
def totalSupplyText (e f : Nat) : String :=
  Float64.format12 (Float64.add
    (Float64.div (Float64.ofUInt64 ((e + f) % 2 ^ 64)) (Float64.ofDecimal 1000000000000 0))
    (Float64.ofDecimal 553402319999999949 12))

/-- A cache holding emission `10^15` and fee `0`, stored when the clock read `unixEpoch`. -/
def gExample : Globals :=
  { cache := { Jsonrpc := "2.0", Id := "0",
               Result := { EmissionAmount := 1000000000000000, FeeAmount := 0 },
               Error := none }
    lastUpdateTime := unixEpoch }

/-- A cache whose two amounts add up to `2^64`, stored when the clock read `unixEpoch`. -/
def gOverflow : Globals :=
  { cache := { Jsonrpc := "2.0", Id := "0",
               Result := { EmissionAmount := 18446744073709551615, FeeAmount := 1 },
               Error := none }
    lastUpdateTime := unixEpoch }

/-- A reply of `get_block_count` without error, reporting 100 blocks. -/
def replyCount : GetBlockCountResponse :=
  { Jsonrpc := "2.0", Id := "0", Result := { Count := 100 }, Error := none }

/-- An iteration in which both calls succeed at once and the sleep lasts exactly five
minutes; the daemon reports emission `10^15` and fee `0`. -/
def envOk : IterEnv :=
  { blockCountReply := .ok replyCount
    coinbaseReply := fun _ _ => .ok gExample.cache
    blockCountDur := 0
    coinbaseDur := 0
    sleepExtra := 0 }

/-- An iteration in which both calls succeed, each after one second; the daemon reports
emission `2^64 - 1` and fee `1`. -/
def envSlow : IterEnv :=
  { blockCountReply := .ok replyCount
    coinbaseReply := fun _ _ => .ok gOverflow.cache
    blockCountDur := 1000000000
    coinbaseDur := 1000000000
    sleepExtra := 0 }

/-- An iteration in which the daemon cannot be reached. -/
def envBlockCountFails : IterEnv :=
  { blockCountReply := .error "connection refused"
    coinbaseReply := fun _ _ => .ok gOverflow.cache
    blockCountDur := 0
    coinbaseDur := 0
    sleepExtra := 0 }

/-- An iteration in which `get_block_count` succeeds and the reply to
`get_coinbase_tx_sum` carries a non-null `error`. -/
def envCoinbaseFails : IterEnv :=
  { blockCountReply := .ok replyCount
    coinbaseReply := fun _ _ => .ok { gOverflow.cache with Error := some "busy" }
    blockCountDur := 0
    coinbaseDur := 0
    sleepExtra := 0 }

/-! ## Lemmas -/

theorem timeSince_gt_iff (now t : Int) :
    timeSince now t > 5 * Minute ↔ now - t > 5 * Minute := by
  simp only [timeSince, maxDuration, minDuration, Minute, Second]
  split_ifs <;> constructor <;> intro h <;> omega

theorem response_handler_stale (g : Globals) (now : Int)
    (h : timeSince now g.lastUpdateTime > 5 * Minute) :
    response (handler g now) = outdatedResponse := by
  simp [handler, h, response, httpError, Response.apply, headerSet, outdatedResponse,
    StatusInternalServerError]

theorem response_handler_fresh (g : Globals) (now : Int)
    (h : ¬ timeSince now g.lastUpdateTime > 5 * Minute) :
    response (handler g now) =
      okResponse (toString (circulationTotal g.cache.Result.EmissionAmount
        g.cache.Result.FeeAmount)) := by
  simp [handler, h, response, Response.apply, headerSet, okResponse, circulationTotal]

theorem response_CirculatingSupply_stale (g : Globals) (now : Int)
    (h : timeSince now g.lastUpdateTime > 5 * Minute) :
    response (CirculatingSupply g now) = outdatedResponse := by
  simp [CirculatingSupply, h, response, httpError, Response.apply, headerSet, outdatedResponse,
    StatusInternalServerError]

theorem response_CirculatingSupply_fresh (g : Globals) (now : Int)
    (h : ¬ timeSince now g.lastUpdateTime > 5 * Minute) :
    response (CirculatingSupply g now) =
      okResponse (jsonEncodeResult (circulatingSupplyText g.cache.Result.EmissionAmount
        g.cache.Result.FeeAmount)) := by
  simp [CirculatingSupply, h, response, Response.apply, headerSet, okResponse,
    circulatingSupplyText]

theorem response_TotalSupply_stale (g : Globals) (now : Int)
    (h : timeSince now g.lastUpdateTime > 5 * Minute) :
    response (TotalSupply g now) = outdatedResponse := by
  simp [TotalSupply, h, response, httpError, Response.apply, headerSet, outdatedResponse,
    StatusInternalServerError]

theorem response_TotalSupply_fresh (g : Globals) (now : Int)
    (h : ¬ timeSince now g.lastUpdateTime > 5 * Minute) :
    response (TotalSupply g now) =
      okResponse (jsonEncodeResult (totalSupplyText g.cache.Result.EmissionAmount
        g.cache.Result.FeeAmount)) := by
  simp [TotalSupply, h, response, Response.apply, headerSet, okResponse, totalSupplyText]

theorem okResponse_ne_outdated (body : String) : okResponse body ≠ outdatedResponse := by
  intro h
  have := congrArg Response.status h
  simp [okResponse, outdatedResponse] at this

theorem unixEpoch_gt : 5 * Minute < unixEpoch := by
  simp only [unixEpoch, Minute, Second]; omega

/-- C1. Staleness gate: each of the three handlers answers with status 500 and the message
"Cache is outdated" exactly when `now - lastUpdateTime` is strictly more than five minutes
(an age of exactly five minutes is served); otherwise it answers with status 200 and the
value computed from the cached pair. In the state the program starts in, every handler
answers 500 (the clock of a running system reads at or after the Unix epoch). -/
theorem staleness_gate (g : Globals) (now : Int) :
    (response (handler g now) = outdatedResponse ↔ now - g.lastUpdateTime > 5 * Minute) ∧
    (response (CirculatingSupply g now) = outdatedResponse ↔
      now - g.lastUpdateTime > 5 * Minute) ∧
    (response (TotalSupply g now) = outdatedResponse ↔ now - g.lastUpdateTime > 5 * Minute) ∧
    (¬ now - g.lastUpdateTime > 5 * Minute →
      response (handler g now) =
        okResponse (toString (circulationTotal g.cache.Result.EmissionAmount
          g.cache.Result.FeeAmount)) ∧
      response (CirculatingSupply g now) =
        okResponse (jsonEncodeResult (circulatingSupplyText g.cache.Result.EmissionAmount
          g.cache.Result.FeeAmount)) ∧
      response (TotalSupply g now) =
        okResponse (jsonEncodeResult (totalSupplyText g.cache.Result.EmissionAmount
          g.cache.Result.FeeAmount))) ∧
    (now - g.lastUpdateTime = 5 * Minute → (response (handler g now)).status = 200 ∧
      (response (CirculatingSupply g now)).status = 200 ∧
      (response (TotalSupply g now)).status = 200) ∧
    (unixEpoch ≤ now →
      response (handler initGlobals now) = outdatedResponse ∧
      response (CirculatingSupply initGlobals now) = outdatedResponse ∧
      response (TotalSupply initGlobals now) = outdatedResponse) := by
  have key := timeSince_gt_iff now g.lastUpdateTime
  refine ⟨⟨?_, ?_⟩, ⟨?_, ?_⟩, ⟨?_, ?_⟩, ?_, ?_, ?_⟩
  · intro h
    by_contra hn
    rw [response_handler_fresh g now (by rwa [key])] at h
    exact okResponse_ne_outdated _ h
  · intro h
    exact response_handler_stale g now (key.2 h)
  · intro h
    by_contra hn
    rw [response_CirculatingSupply_fresh g now (by rwa [key])] at h
    exact okResponse_ne_outdated _ h
  · intro h
    exact response_CirculatingSupply_stale g now (key.2 h)
  · intro h
    by_contra hn
    rw [response_TotalSupply_fresh g now (by rwa [key])] at h
    exact okResponse_ne_outdated _ h
  · intro h
    exact response_TotalSupply_stale g now (key.2 h)
  · intro hn
    have hf : ¬ timeSince now g.lastUpdateTime > 5 * Minute := by rwa [key]
    exact ⟨response_handler_fresh g now hf, response_CirculatingSupply_fresh g now hf,
      response_TotalSupply_fresh g now hf⟩
  · intro he
    have hf : ¬ timeSince now g.lastUpdateTime > 5 * Minute := by
      rw [key]; omega
    rw [response_handler_fresh g now hf, response_CirculatingSupply_fresh g now hf,
      response_TotalSupply_fresh g now hf]
    simp [okResponse]
  · intro he
    have hu := unixEpoch_gt
    have hs : timeSince now initGlobals.lastUpdateTime > 5 * Minute := by
      rw [timeSince_gt_iff]
      simp only [initGlobals]
      omega
    exact ⟨response_handler_stale _ now hs, response_CirculatingSupply_stale _ now hs,
      response_TotalSupply_stale _ now hs⟩

/-- Witness of C1 at the cache `gExample`, aged exactly five minutes (served), and at the
initial state with the clock at the Unix epoch (refused). -/
theorem staleness_gate_witness :
    ((response (handler gExample (unixEpoch + 5 * Minute))).status = 200 ∧
      (response (CirculatingSupply gExample (unixEpoch + 5 * Minute))).status = 200 ∧
      (response (TotalSupply gExample (unixEpoch + 5 * Minute))).status = 200) ∧
    (response (handler initGlobals unixEpoch) = outdatedResponse ∧
      response (CirculatingSupply initGlobals unixEpoch) = outdatedResponse ∧
      response (TotalSupply initGlobals unixEpoch) = outdatedResponse) :=
  ⟨(staleness_gate gExample (unixEpoch + 5 * Minute)).2.2.2.2.1 (by simp [gExample]),
   (staleness_gate initGlobals unixEpoch).2.2.2.2.2 (le_refl _)⟩

theorem padZeros_length (s : String) (h : s.length ≤ 12) : (padZeros 12 s).length = 12 := by
  simp only [padZeros, String.length_append, String.length_mk, List.length_replicate]
  omega

theorem format12_shape (x : Float64) :
    ∃ (whole : Nat) (frac : String),
      x.format12 = toString whole ++ "." ++ frac ∧ frac.length = 12 := by
  refine ⟨roundHalfEven (x.units * 10 ^ 12) (2 ^ 1074) / 10 ^ 12,
    padZeros 12 (toString (roundHalfEven (x.units * 10 ^ 12) (2 ^ 1074) % 10 ^ 12)), rfl, ?_⟩
  apply padZeros_length
  exact Nat.repr_length _ 12 (by decide) (Nat.mod_lt _ (by positivity))

theorem circulationTotal_eq (e f : Nat) :
    circulationTotal e f = (e + f) % 2 ^ 64 / 1000000000000 + 14500 := by
  unfold circulationTotal
  apply Nat.mod_eq_of_lt
  omega

theorem circulatingSupplyText_example :
    circulatingSupplyText 1000000000000000 0 = "15500.000000000000" := by
  decide!

theorem totalSupplyText_example :
    totalSupplyText 1000000000000000 0 = "554402.319999999949" := by
  decide!

/-- C2, counterexample. With emission `2^64 - 1` and fee `1` in a cache that is not stale,
`/circulation` writes "14500", not the rendering "18461244" of
`floor((emission + fee) / 10^12) + 14500` for the true sum `2^64`. -/
theorem circulation_true_sum_counterexample :
    ¬ (unixEpoch - gOverflow.lastUpdateTime > 5 * Minute) ∧
    (response (handler gOverflow unixEpoch)).body = "14500" ∧
    toString ((18446744073709551615 + 1) / 10 ^ 12 + 14500) = "18461244" ∧
    (response (handler gOverflow unixEpoch)).body ≠
      toString ((gOverflow.cache.Result.EmissionAmount + gOverflow.cache.Result.FeeAmount)
        / 10 ^ 12 + 14500) := by
  refine ⟨by simp [gOverflow, Minute, Second], by decide, by decide, by decide⟩

/-- C2, amended. In a cache that is not stale, the body written by `/circulation` is the
decimal rendering of `floor(((emission + fee) mod 2^64) / 10^12) + 14500`: the sum is taken
in 64 bits. Whenever `emission + fee < 2^64` this is `floor((emission + fee) / 10^12) + 14500`
for the true sum; for emission `10^15` and fee `0` the body is "15500". -/
theorem circulation_body (g : Globals) (now : Int)
    (h : ¬ now - g.lastUpdateTime > 5 * Minute) :
    response (handler g now) =
      okResponse (toString
        ((g.cache.Result.EmissionAmount + g.cache.Result.FeeAmount) % 2 ^ 64 / 10 ^ 12
          + 14500)) ∧
    (g.cache.Result.EmissionAmount + g.cache.Result.FeeAmount < 2 ^ 64 →
      (response (handler g now)).body =
        toString ((g.cache.Result.EmissionAmount + g.cache.Result.FeeAmount) / 10 ^ 12
          + 14500)) ∧
    (g.cache.Result.EmissionAmount = 1000000000000000 → g.cache.Result.FeeAmount = 0 →
      (response (handler g now)).body = "15500") := by
  have hf : ¬ timeSince now g.lastUpdateTime > 5 * Minute := by rwa [timeSince_gt_iff]
  rw [response_handler_fresh g now hf, circulationTotal_eq]
  refine ⟨by norm_num, ?_, ?_⟩
  · intro hlt
    simp only [okResponse, Nat.mod_eq_of_lt hlt]
    norm_num
  · intro he hz
    rw [he, hz]
    decide

/-- Witness of C2 (amended) at the cache `gExample`, read one minute after it was stored. -/
theorem circulation_body_witness :
    (response (handler gExample (unixEpoch + Minute))).body = "15500" :=
  (circulation_body gExample (unixEpoch + Minute) (by simp [gExample, Minute, Second])).2.2
    rfl rfl

/-- C5, counterexample. With emission `10^15` and fee `0` in a cache that is not stale,
`CirculatingSupply` answers with status 200 and a body that is not the object
`{"result":"15501.000000000000"}`, with or without the newline the encoder appends. -/
theorem circulatingSupply_15501_counterexample :
    ¬ (unixEpoch - gExample.lastUpdateTime > 5 * Minute) ∧
    (response (CirculatingSupply gExample unixEpoch)).status = 200 ∧
    (response (CirculatingSupply gExample unixEpoch)).body ≠
      "\x7b\"result\":\"15501.000000000000\"\x7d\n" ∧
    (response (CirculatingSupply gExample unixEpoch)).body ≠
      "\x7b\"result\":\"15501.000000000000\"\x7d" := by
  refine ⟨by simp [gExample, Minute, Second], by decide!, by decide!, by decide!⟩

/-- C5, amended. With emission `10^15` and fee `0` in a cache that is not stale,
`CirculatingSupply` returns the JSON object `{"result":"15500.000000000000"}` followed by a
newline. For every cache that is not stale the result is
`float64((emission + fee) mod 2^64) / 1e12 + 14500.0`, each operation rounded to `float64`,
printed in fixed point with exactly 12 digits after the point. -/
theorem circulatingSupply_body (g : Globals) (now : Int)
    (h : ¬ now - g.lastUpdateTime > 5 * Minute) :
    (g.cache.Result.EmissionAmount = 1000000000000000 → g.cache.Result.FeeAmount = 0 →
      response (CirculatingSupply g now) =
        okResponse "\x7b\"result\":\"15500.000000000000\"\x7d\n") ∧
    response (CirculatingSupply g now) =
      okResponse (jsonEncodeResult (Float64.format12 (Float64.add
        (Float64.div
          (Float64.ofUInt64
            ((g.cache.Result.EmissionAmount + g.cache.Result.FeeAmount) % 2 ^ 64))
          (Float64.ofDecimal 1000000000000 0))
        (Float64.ofUInt64 14500)))) ∧
    (∃ (whole : Nat) (frac : String), frac.length = 12 ∧
      (response (CirculatingSupply g now)).body =
        jsonEncodeResult (toString whole ++ "." ++ frac)) := by
  have hf : ¬ timeSince now g.lastUpdateTime > 5 * Minute := by rwa [timeSince_gt_iff]
  rw [response_CirculatingSupply_fresh g now hf]
  refine ⟨?_, rfl, ?_⟩
  · intro he hz
    rw [he, hz, circulatingSupplyText_example]
    rfl
  · obtain ⟨whole, frac, hshape, hlen⟩ := format12_shape (Float64.add
      (Float64.div
        (Float64.ofUInt64
          ((g.cache.Result.EmissionAmount + g.cache.Result.FeeAmount) % 2 ^ 64))
        (Float64.ofDecimal 1000000000000 0))
      (Float64.ofUInt64 14500))
    exact ⟨whole, frac, hlen, by simp only [okResponse, circulatingSupplyText, hshape]⟩

/-- Witness of C5 (amended) at the cache `gExample`, read one minute after it was stored. -/
theorem circulatingSupply_body_witness :
    response (CirculatingSupply gExample (unixEpoch + Minute)) =
      okResponse "\x7b\"result\":\"15500.000000000000\"\x7d\n" :=
  (circulatingSupply_body gExample (unixEpoch + Minute)
    (by simp [gExample, Minute, Second])).1 rfl rfl

/-- C6, counterexample. With emission `10^15` and fee `0` in a cache that is not stale,
`TotalSupply` answers with status 200 and a body that is not the object
`{"result":"554403.319999999949"}`, with or without the newline the encoder appends. -/
theorem totalSupply_554403_counterexample :
    ¬ (unixEpoch - gExample.lastUpdateTime > 5 * Minute) ∧
    (response (TotalSupply gExample unixEpoch)).status = 200 ∧
    (response (TotalSupply gExample unixEpoch)).body ≠
      "\x7b\"result\":\"554403.319999999949\"\x7d\n" ∧
    (response (TotalSupply gExample unixEpoch)).body ≠
      "\x7b\"result\":\"554403.319999999949\"\x7d" := by
  refine ⟨by simp [gExample, Minute, Second], by decide!, by decide!, by decide!⟩

/-- C6, amended. With emission `10^15` and fee `0` in a cache that is not stale,
`TotalSupply` returns the JSON object `{"result":"554402.319999999949"}` followed by a
newline. For every cache that is not stale the result is
`float64((emission + fee) mod 2^64) / 1e12 + 553402.319999999949`, each operation and the
constant rounded to `float64`, printed in fixed point with exactly 12 digits after the
point. -/
theorem totalSupply_body (g : Globals) (now : Int)
    (h : ¬ now - g.lastUpdateTime > 5 * Minute) :
    (g.cache.Result.EmissionAmount = 1000000000000000 → g.cache.Result.FeeAmount = 0 →
      response (TotalSupply g now) =
        okResponse "\x7b\"result\":\"554402.319999999949\"\x7d\n") ∧
    response (TotalSupply g now) =
      okResponse (jsonEncodeResult (Float64.format12 (Float64.add
        (Float64.div
          (Float64.ofUInt64
            ((g.cache.Result.EmissionAmount + g.cache.Result.FeeAmount) % 2 ^ 64))
          (Float64.ofDecimal 1000000000000 0))
        (Float64.ofDecimal 553402319999999949 12)))) ∧
    (∃ (whole : Nat) (frac : String), frac.length = 12 ∧
      (response (TotalSupply g now)).body =
        jsonEncodeResult (toString whole ++ "." ++ frac)) := by
  have hf : ¬ timeSince now g.lastUpdateTime > 5 * Minute := by rwa [timeSince_gt_iff]
  rw [response_TotalSupply_fresh g now hf]
  refine ⟨?_, rfl, ?_⟩
  · intro he hz
    rw [he, hz, totalSupplyText_example]
    rfl
  · obtain ⟨whole, frac, hshape, hlen⟩ := format12_shape (Float64.add
      (Float64.div
        (Float64.ofUInt64
          ((g.cache.Result.EmissionAmount + g.cache.Result.FeeAmount) % 2 ^ 64))
        (Float64.ofDecimal 1000000000000 0))
      (Float64.ofDecimal 553402319999999949 12))
    exact ⟨whole, frac, hlen, by simp only [okResponse, totalSupplyText, hshape]⟩

/-- Witness of C6 (amended) at the cache `gExample`, read one minute after it was stored. -/
theorem totalSupply_body_witness :
    response (TotalSupply gExample (unixEpoch + Minute)) =
      okResponse "\x7b\"result\":\"554402.319999999949\"\x7d\n" :=
  (totalSupply_body gExample (unixEpoch + Minute)
    (by simp [gExample, Minute, Second])).1 rfl rfl

theorem updateCacheIter_fails (env : IterEnv) (g : Globals) (clock : Int) (h : env.fails) :
    (updateCacheIter env g clock).g = g := by
  rcases h with ⟨err, h1⟩ | ⟨height2, err, h1, h2⟩
  · simp [updateCacheIter, h1]
  · simp [updateCacheIter, h1, h2]

theorem updateCacheIter_succeeds (env : IterEnv) (g : Globals) (clock : Int)
    (result : CoinbaseTxSumResponse) (h : env.succeedsWith result) :
    (updateCacheIter env g clock).g =
      { cache := result, lastUpdateTime := env.writeTime clock } := by
  obtain ⟨height2, h1, h2⟩ := h
  simp [updateCacheIter, h1, h2, IterEnv.writeTime]

theorem updateCacheIter_succeeds_clock (env : IterEnv) (g : Globals) (clock : Int)
    (result : CoinbaseTxSumResponse) (h : env.succeedsWith result) :
    (updateCacheIter env g clock).clock =
      env.writeTime clock + (5 * Minute + env.sleepExtra) := by
  obtain ⟨height2, h1, h2⟩ := h
  simp [updateCacheIter, h1, h2, IterEnv.writeTime]

theorem updateCache_fails (fs : List IterEnv) (g : Globals) (clock : Int)
    (h : ∀ env ∈ fs, env.fails) : (updateCache fs g clock).g = g := by
  induction fs generalizing g clock with
  | nil => rfl
  | cons env rest ih =>
    simp only [updateCache]
    rw [ih _ _ (fun e he => h e (List.mem_cons_of_mem _ he)),
      updateCacheIter_fails env g clock (h env (List.mem_cons_self _ _))]

theorem updateCache_snoc (pre : List IterEnv) (env : IterEnv) (g : Globals) (clock : Int) :
    (updateCache (pre ++ [env]) g clock).g =
      (updateCacheIter env (updateCache pre g clock).g (updateCache pre g clock).clock).g := by
  induction pre generalizing g clock with
  | nil => rfl
  | cons e rest ih =>
    simp only [List.cons_append, updateCache]
    exact ih _ _

theorem envOk_succeeds : envOk.succeedsWith gExample.cache :=
  ⟨100, rfl, rfl⟩

theorem envSlow_succeeds : envSlow.succeedsWith gOverflow.cache :=
  ⟨100, rfl, rfl⟩

theorem envBlockCountFails_fails : envBlockCountFails.fails :=
  Or.inl ⟨"connection refused", rfl⟩

theorem envCoinbaseFails_fails : envCoinbaseFails.fails :=
  Or.inr ⟨100, "RPC Error: busy", rfl, rfl⟩

/-- C3. A failed refresh never modifies the cache: an iteration of the loop of `updateCache`
in which `getBlockCount` returns an error, or in which it succeeds and `getCoinbaseTxSum`
returns an error, leaves emission, fee and `lastUpdateTime` as they were. -/
theorem failed_refresh_keeps_cache (env : IterEnv) (g : Globals) (clock : Int)
    (h : env.fails) :
    (updateCacheIter env g clock).g = g ∧
    (updateCacheIter env g clock).g.cache.Result.EmissionAmount =
      g.cache.Result.EmissionAmount ∧
    (updateCacheIter env g clock).g.cache.Result.FeeAmount = g.cache.Result.FeeAmount ∧
    (updateCacheIter env g clock).g.lastUpdateTime = g.lastUpdateTime := by
  rw [updateCacheIter_fails env g clock h]
  exact ⟨rfl, rfl, rfl, rfl⟩

/-- Witness of C3 for both kinds of failure, on the cache `gExample`. -/
theorem failed_refresh_keeps_cache_witness :
    (updateCacheIter envBlockCountFails gExample (unixEpoch + 5 * Minute)).g = gExample ∧
    (updateCacheIter envCoinbaseFails gExample (unixEpoch + 5 * Minute)).g = gExample :=
  ⟨(failed_refresh_keeps_cache envBlockCountFails gExample (unixEpoch + 5 * Minute)
      envBlockCountFails_fails).1,
   (failed_refresh_keeps_cache envCoinbaseFails gExample (unixEpoch + 5 * Minute)
      envCoinbaseFails_fails).1⟩

/-- C4. Read after write: an iteration in which both calls succeed with `result`, storing
the time `t`, leaves the cache equal to `result` and `lastUpdateTime` equal to `t`, whatever
the state before. Consequently, after any iterations followed by a successful one, a handler
invoked no more than five minutes after `t` computes its value from the pair written
last. -/
theorem read_after_write (pre : List IterEnv) (env : IterEnv) (g : Globals) (clock : Int)
    (result : CoinbaseTxSumResponse) (h : env.succeedsWith result) :
    (updateCacheIter env g clock).g =
      { cache := result, lastUpdateTime := env.writeTime clock } ∧
    (updateCache (pre ++ [env]) g clock).g =
      { cache := result, lastUpdateTime := env.writeTime (updateCache pre g clock).clock } ∧
    ∀ now : Int, now - env.writeTime (updateCache pre g clock).clock ≤ 5 * Minute →
      response (handler (updateCache (pre ++ [env]) g clock).g now) =
        okResponse (toString
          ((result.Result.EmissionAmount + result.Result.FeeAmount) % 2 ^ 64 / 10 ^ 12
            + 14500)) ∧
      response (CirculatingSupply (updateCache (pre ++ [env]) g clock).g now) =
        okResponse (jsonEncodeResult
          (circulatingSupplyText result.Result.EmissionAmount result.Result.FeeAmount)) ∧
      response (TotalSupply (updateCache (pre ++ [env]) g clock).g now) =
        okResponse (jsonEncodeResult
          (totalSupplyText result.Result.EmissionAmount result.Result.FeeAmount)) := by
  have hrun := updateCache_snoc pre env g clock
  rw [updateCacheIter_succeeds env _ _ result h] at hrun
  refine ⟨updateCacheIter_succeeds env g clock result h, hrun, ?_⟩
  intro now hnow
  rw [hrun]
  have hf : ¬ timeSince now
      (Globals.mk result (env.writeTime (updateCache pre g clock).clock)).lastUpdateTime
        > 5 * Minute := by
    rw [timeSince_gt_iff]
    simp only
    omega
  rw [response_handler_fresh _ now hf, response_CirculatingSupply_fresh _ now hf,
    response_TotalSupply_fresh _ now hf, circulationTotal_eq]
  exact ⟨by norm_num, rfl, rfl⟩

/-- Witness of C4: from the initial state, a failed iteration, a successful one storing the
pair of `gOverflow`, then a successful one storing the pair of `gExample`; a handler
invoked at the time of the last write serves "15500". -/
theorem read_after_write_witness :
    (updateCache ([envBlockCountFails, envSlow] ++ [envOk]) initGlobals unixEpoch).g.cache
      = gExample.cache ∧
    (response (handler
      (updateCache ([envBlockCountFails, envSlow] ++ [envOk]) initGlobals unixEpoch).g
      (envOk.writeTime
        (updateCache [envBlockCountFails, envSlow] initGlobals unixEpoch).clock))).body
      = "15500" := by
  have h := read_after_write [envBlockCountFails, envSlow] envOk initGlobals unixEpoch
    gExample.cache envOk_succeeds
  refine ⟨by rw [h.2.1], ?_⟩
  rw [(h.2.2 _ (by simp [Minute, Second])).1]
  decide

/-- C7, counterexample. A successful iteration stores the time `unixEpoch`; the sleep lasts
exactly five minutes, so that the next iteration begins at `unixEpoch + 5 min`, and it fails.
A handler invoked at that instant finds an age of exactly five minutes and serves the cache
with status 200. -/
theorem missed_refresh_boundary_counterexample :
    (updateCacheIter envOk initGlobals unixEpoch).g.lastUpdateTime = unixEpoch ∧
    (updateCacheIter envOk initGlobals unixEpoch).clock = unixEpoch + 5 * Minute ∧
    envBlockCountFails.fails ∧
    ¬ ((response (handler
        (updateCacheIter envBlockCountFails (updateCacheIter envOk initGlobals unixEpoch).g
          (updateCacheIter envOk initGlobals unixEpoch).clock).g
        (unixEpoch + 5 * Minute))).status = 500) ∧
    (response (handler
        (updateCacheIter envBlockCountFails (updateCacheIter envOk initGlobals unixEpoch).g
          (updateCacheIter envOk initGlobals unixEpoch).clock).g
        (unixEpoch + 5 * Minute))).body = "15500" := by
  refine ⟨by decide, by decide, envBlockCountFails_fails, by decide, by decide⟩

/-- C7, amended. If an iteration stores the cache at time `t` and the iterations after it
fail, the next attempt begins at or after `t + 5 min`, `lastUpdateTime` stays `t`, and at
every time strictly later than `t + 5 min` each of the three handlers answers 500; this
covers every time at or after the failed attempt as soon as the sleep lasted longer than
five minutes. An age of exactly five minutes is not covered. -/
theorem missed_refresh_marks_stale (env : IterEnv) (fs : List IterEnv) (g : Globals)
    (clock : Int) (result : CoinbaseTxSumResponse)
    (hok : env.succeedsWith result) (hfail : ∀ e ∈ fs, e.fails) :
    (updateCacheIter env g clock).clock ≥ env.writeTime clock + 5 * Minute ∧
    (updateCache fs (updateCacheIter env g clock).g
      (updateCacheIter env g clock).clock).g.lastUpdateTime = env.writeTime clock ∧
    (∀ now : Int, env.writeTime clock + 5 * Minute < now →
      response (handler (updateCache fs (updateCacheIter env g clock).g
        (updateCacheIter env g clock).clock).g now) = outdatedResponse ∧
      response (CirculatingSupply (updateCache fs (updateCacheIter env g clock).g
        (updateCacheIter env g clock).clock).g now) = outdatedResponse ∧
      response (TotalSupply (updateCache fs (updateCacheIter env g clock).g
        (updateCacheIter env g clock).clock).g now) = outdatedResponse) ∧
    (0 < env.sleepExtra → ∀ now : Int, (updateCacheIter env g clock).clock ≤ now →
      response (handler (updateCache fs (updateCacheIter env g clock).g
        (updateCacheIter env g clock).clock).g now) = outdatedResponse ∧
      response (CirculatingSupply (updateCache fs (updateCacheIter env g clock).g
        (updateCacheIter env g clock).clock).g now) = outdatedResponse ∧
      response (TotalSupply (updateCache fs (updateCacheIter env g clock).g
        (updateCacheIter env g clock).clock).g now) = outdatedResponse) := by
  have hg := updateCache_fails fs (updateCacheIter env g clock).g
    (updateCacheIter env g clock).clock hfail
  have hc := updateCacheIter_succeeds_clock env g clock result hok
  rw [hg, updateCacheIter_succeeds env g clock result hok, hc]
  have stale : ∀ now : Int, env.writeTime clock + 5 * Minute < now →
      timeSince now (Globals.mk result (env.writeTime clock)).lastUpdateTime > 5 * Minute := by
    intro now hnow
    rw [timeSince_gt_iff]
    simp only
    omega
  refine ⟨by omega, rfl, ?_, ?_⟩
  · intro now hnow
    exact ⟨response_handler_stale _ now (stale now hnow),
      response_CirculatingSupply_stale _ now (stale now hnow),
      response_TotalSupply_stale _ now (stale now hnow)⟩
  · intro hextra now hnow
    have hlt : env.writeTime clock + 5 * Minute < now := by omega
    exact ⟨response_handler_stale _ now (stale now hlt),
      response_CirculatingSupply_stale _ now (stale now hlt),
      response_TotalSupply_stale _ now (stale now hlt)⟩

/-- Witness of C7 (amended): a write at `unixEpoch`, two failed iterations, and a handler
invoked one nanosecond after `unixEpoch + 5 min`. -/
theorem missed_refresh_marks_stale_witness :
    response (handler
      (updateCache [envBlockCountFails, envCoinbaseFails]
        (updateCacheIter envOk initGlobals unixEpoch).g
        (updateCacheIter envOk initGlobals unixEpoch).clock).g
      (unixEpoch + 5 * Minute + 1)) = outdatedResponse :=
  ((missed_refresh_marks_stale envOk [envBlockCountFails, envCoinbaseFails] initGlobals
    unixEpoch gExample.cache envOk_succeeds
    (by
      intro e he
      simp only [List.mem_cons, List.mem_singleton, List.not_mem_nil, or_false] at he
      rcases he with rfl | rfl
      · exact envBlockCountFails_fails
      · exact envCoinbaseFails_fails)).2.2.1
    (unixEpoch + 5 * Minute + 1) (by simp [IterEnv.writeTime, envOk])).1

/-- C10. Stale window although every refresh succeeds: for two consecutive successful
iterations storing the times `t` and `t2`, `t2` is `t` plus the sleep of at least five minutes
plus the duration of the two calls, and every handler invoked at a time `s` with
`t + 5 min < s < t2` answers 500. Some schedule without any failed refresh has such an
`s`. -/
theorem stale_window_between_successes (env1 env2 : IterEnv) (g : Globals) (clock : Int)
    (res1 res2 : CoinbaseTxSumResponse)
    (h1 : env1.succeedsWith res1) (h2 : env2.succeedsWith res2) :
    (updateCacheIter env1 g clock).g.lastUpdateTime = env1.writeTime clock ∧
    (updateCacheIter env2 (updateCacheIter env1 g clock).g
      (updateCacheIter env1 g clock).clock).g.lastUpdateTime =
        env2.writeTime (updateCacheIter env1 g clock).clock ∧
    env2.writeTime (updateCacheIter env1 g clock).clock =
      env1.writeTime clock + (5 * Minute + env1.sleepExtra) + env2.blockCountDur
        + env2.coinbaseDur ∧
    (∀ s : Int, env1.writeTime clock + 5 * Minute < s →
      s < env2.writeTime (updateCacheIter env1 g clock).clock →
      response (handler (updateCacheIter env1 g clock).g s) = outdatedResponse ∧
      response (CirculatingSupply (updateCacheIter env1 g clock).g s) = outdatedResponse ∧
      response (TotalSupply (updateCacheIter env1 g clock).g s) = outdatedResponse) ∧
    (∃ (e1 e2 : IterEnv) (r1 r2 : CoinbaseTxSumResponse) (g0 : Globals) (c s : Int),
      e1.succeedsWith r1 ∧ e2.succeedsWith r2 ∧
      e1.writeTime c + 5 * Minute < s ∧
      s < e2.writeTime (updateCacheIter e1 g0 c).clock ∧
      response (handler (updateCacheIter e1 g0 c).g s) = outdatedResponse) := by
  have hc := updateCacheIter_succeeds_clock env1 g clock res1 h1
  have hg := updateCacheIter_succeeds env1 g clock res1 h1
  refine ⟨by rw [hg], ?_, ?_, ?_, ?_⟩
  · rw [updateCacheIter_succeeds env2 _ _ res2 h2]
  · rw [hc]
    simp only [IterEnv.writeTime]
  · intro s hs _
    have stale : timeSince s (updateCacheIter env1 g clock).g.lastUpdateTime > 5 * Minute := by
      rw [timeSince_gt_iff, hg]
      simp only
      omega
    exact ⟨response_handler_stale _ s stale, response_CirculatingSupply_stale _ s stale,
      response_TotalSupply_stale _ s stale⟩
  · refine ⟨envOk, envSlow, gExample.cache, gOverflow.cache, initGlobals, unixEpoch,
      unixEpoch + 5 * Minute + 1000000000, envOk_succeeds, envSlow_succeeds, ?_, ?_, ?_⟩
    · simp [IterEnv.writeTime, envOk]
    · rw [updateCacheIter_succeeds_clock envOk _ _ _ envOk_succeeds]
      simp [IterEnv.writeTime, envOk, envSlow]
    · apply response_handler_stale
      rw [timeSince_gt_iff, updateCacheIter_succeeds envOk _ _ _ envOk_succeeds]
      simp only [IterEnv.writeTime, envOk]
      omega

/-- Witness of C10: writes at `unixEpoch` and at `unixEpoch + 5 min + 2 s`, a handler invoked
at `unixEpoch + 5 min + 1 s`. -/
theorem stale_window_between_successes_witness :
    response (handler (updateCacheIter envOk initGlobals unixEpoch).g
      (unixEpoch + 5 * Minute + 1000000000)) = outdatedResponse :=
  ((stale_window_between_successes envOk envSlow initGlobals unixEpoch gExample.cache
    gOverflow.cache envOk_succeeds envSlow_succeeds).2.2.2.1
    (unixEpoch + 5 * Minute + 1000000000)
    (by simp [IterEnv.writeTime, envOk])
    (by
      rw [updateCacheIter_succeeds_clock envOk _ _ _ envOk_succeeds]
      simp [IterEnv.writeTime, envOk, envSlow])).1

theorem updateCacheIter_effects (env : IterEnv) (g : Globals) (clock : Int) :
    noneUnderLock Effect.blocking false (updateCacheIter env g clock).effects = true := by
  unfold updateCacheIter
  simp only
  split
  · simp [getBlockCount, noneUnderLock, Effect.blocking]
  · split <;> simp [getBlockCount, getCoinbaseTxSum, noneUnderLock, Effect.blocking]

/-- C8, counterexample. `handler`, run on a cache that is not stale, writes the body "15500"
to the HTTP response between acquiring `cacheMutex` and the deferred release; on the
initial state it writes the status line and the error message while holding the lock. -/
theorem handler_writes_under_lock_counterexample :
    handler gExample unixEpoch =
      [Effect.lock, Effect.setHeader "Content-Type" "application/json",
        Effect.write "15500", Effect.unlock] ∧
    noneUnderLock Effect.blocking false (handler gExample unixEpoch) = false ∧
    noneUnderLock Effect.blocking false (CirculatingSupply gExample unixEpoch) = false ∧
    noneUnderLock Effect.blocking false (TotalSupply gExample unixEpoch) = false ∧
    underLock Effect.blocking false (handler initGlobals unixEpoch) =
      [Effect.writeHeader 500, Effect.write "Cache is outdated\n"] := by
  refine ⟨by decide, by decide, by decide!, by decide!, by decide⟩

/-- C8, amended. In every iteration of the loop of `updateCache` no RPC call, response write
or sleep occurs while `cacheMutex` is held. Each of the three handlers acquires the lock
first and releases it last (the release is deferred), performs no RPC call and no sleep, and
writes its whole HTTP response while holding the lock. -/
theorem lock_discipline (env : IterEnv) (g : Globals) (clock now : Int) :
    noneUnderLock Effect.blocking false (updateCacheIter env g clock).effects = true ∧
    (noneUnderLock Effect.rpcOrSleep false (handler g now) = true ∧
      (handler g now).head? = some Effect.lock ∧
      (handler g now).getLast? = some Effect.unlock ∧
      underLock Effect.blocking false (handler g now) =
        (handler g now).filter Effect.blocking ∧
      underLock Effect.blocking false (handler g now) ≠ []) ∧
    (noneUnderLock Effect.rpcOrSleep false (CirculatingSupply g now) = true ∧
      (CirculatingSupply g now).head? = some Effect.lock ∧
      (CirculatingSupply g now).getLast? = some Effect.unlock ∧
      underLock Effect.blocking false (CirculatingSupply g now) =
        (CirculatingSupply g now).filter Effect.blocking ∧
      underLock Effect.blocking false (CirculatingSupply g now) ≠ []) ∧
    (noneUnderLock Effect.rpcOrSleep false (TotalSupply g now) = true ∧
      (TotalSupply g now).head? = some Effect.lock ∧
      (TotalSupply g now).getLast? = some Effect.unlock ∧
      underLock Effect.blocking false (TotalSupply g now) =
        (TotalSupply g now).filter Effect.blocking ∧
      underLock Effect.blocking false (TotalSupply g now) ≠ []) := by
  refine ⟨updateCacheIter_effects env g clock, ?_, ?_, ?_⟩
  · by_cases h : timeSince now g.lastUpdateTime > 5 * Minute <;>
      simp [handler, h, httpError, noneUnderLock, underLock, Effect.blocking,
        Effect.rpcOrSleep]
  · by_cases h : timeSince now g.lastUpdateTime > 5 * Minute <;>
      simp [CirculatingSupply, h, httpError, noneUnderLock, underLock, Effect.blocking,
        Effect.rpcOrSleep]
  · by_cases h : timeSince now g.lastUpdateTime > 5 * Minute <;>
      simp [TotalSupply, h, httpError, noneUnderLock, underLock, Effect.blocking,
        Effect.rpcOrSleep]

end TuskeApiServer
